import Mathlib

/- Verification development for the ECE346 Lab1 trajectory planner.

   Shallow embedding of the two source files
     src/ROS_Core/src/Labs/Lab1/scripts/ILQR/ilqr.py        (class ILQR)
     src/ROS_Core/src/Labs/Lab1/scripts/traj_planner.py     (class TrajectoryPlanner)
   Numeric collaborators that are not in the source tree (cost.py, dynamics.py,
   ref_path.py, utils) are abstracted: scalar quantities produced by them appear as
   rational parameters, and the RealtimeBuffer channel is modelled from the spec
   (it is imported from utils, which is not part of the two source files).
   Python floats are modelled by exact rationals; exceptions are modelled by an
   explicit result type. -/

/-- Python exception kinds raised by the embedded code paths. -/
inductive PyExn where
  /-- NumPy ValueError, e.g. a scalar operand passed to matmul, or a failed
      broadcast during slice assignment. -/
  | valueError
  /-- Python NameError: a name referenced before any assignment to it. -/
  | nameError
  /-- Python AssertionError from a failed assert statement. -/
  | assertionError
  deriving DecidableEq

/-- Result of running a piece of Python code: a normal value or a raised exception. -/
inductive PyResult (α : Type) where
  | ok : α → PyResult α
  | exn : PyExn → PyResult α
  deriving DecidableEq

/-- A NumPy 2-D array of rationals: shape (rows, cols) plus an entry function.
    Used for control sequences of shape (dim_u, T). -/
structure Arr2 where
  rows : Nat
  cols : Nat
  entry : Nat → Nat → ℚ

/-- np.zeros((r, c)). -/
def Arr2.zeros (r c : Nat) : Arr2 := ⟨r, c, fun _ _ => 0⟩

/-- Validity of NumPy matmul (the @ operator) at the level of shapes, restricted to
    the cases appearing in ilqr.py: a rank-0 operand (a Python float) is rejected
    outright by NumPy ("Scalar operands are not allowed"), and two rank-2 operands
    compose only when the inner dimensions agree. -/
def matmulShape : List Nat → List Nat → Option (List Nat)
  | [], _ => none
  | _, [] => none
  | [n, k], [k2, m] => if k = k2 then some [n, m] else none
  | _, _ => none

/-- Validity of a NumPy broadcast of a value of shape src into a destination of
    shape dst (as in a slice assignment dst[...] = src): the source rank may not
    exceed the destination rank, and every trailing-aligned source dimension must
    equal the destination dimension or be 1. -/
def broadcastsTo (src dst : List Nat) : Bool :=
  decide (src.length ≤ dst.length) &&
  (List.zip src.reverse dst.reverse).all (fun p => decide (p.1 = p.2) || decide (p.1 = 1))

namespace ILQR

/-- The two branches of the if statement at ilqr.py lines 173-176 inside the
    backward-pass while loop, as a function of the test
    np.all(np.linalg.eigvals(Quu_reg) > 0). -/
inductive BPBranch where
  /-- Lines 174-176: lam is multiplied by the alpha argument, t is reset to T-1 and
      the loop continues (no gains are written in this iteration). -/
  | restartScaleLam
  /-- Lines 179-186: the gain computation block for the current t is entered. -/
  | computeGains
  deriving DecidableEq

/-- Branch selection of ilqr.py lines 173-186, conditional on lines 169-170 having
    produced a value: the gain-computation block is reached exactly when the
    positive-definiteness test on Quu_reg FAILS, and the restart-and-scale branch
    is taken exactly when the test succeeds. -/
def backwardPassBranch (quuRegPD : Bool) : BPBranch :=
  if quuRegPD then BPBranch.restartScaleLam else BPBranch.computeGains

/-- The lam update applied by ilqr.py line 174 (lam = alpha*lam). No clamp to
    reg_max or reg_min appears there, nor at the b*lam return on line 190; the
    reg_min/reg_max parameters loaded at lines 68-69 are never read again. -/
def lamScaleUp (alpha lam : ℚ) : ℚ := alpha * lam

/-- n successive applications of the line-174 lam update. -/
def lamScaleUps (alpha : ℚ) : Nat → ℚ → ℚ
  | 0, lam => lam
  | n+1, lam => lamScaleUps alpha n (lamScaleUp alpha lam)

/-- ILQR.backward_pass (ilqr.py lines 133-190), at the level of its observable
    run outcome. dim_x is P.shape[0] (the state dimension, 5 in this lab) and T
    is self.T. Behaviour of the source:
    if T = 0 the while loop at line 152 is skipped and line 190 returns the
    names Kt and kt which were never assigned, raising NameError. Otherwise the
    first loop iteration evaluates line 169,
    Quu_reg = Rt + Bt.transpose()@(P + lam@np.identity(P.shape[0]))@Bt, whose
    subterm lam@np.identity(P.shape[0]) applies the @ operator to the Python
    float lam (a rank-0 operand), which NumPy matmul rejects with ValueError;
    this happens before the positive-definiteness test on line 173, so no
    iteration ever completes. The ok branch below is unreachable because
    matmulShape refuses a rank-0 left operand; it is kept only to make the
    definition total over the match. -/
def backward_pass (dim_x T : Nat) : PyResult Unit :=
  if T = 0 then PyResult.exn PyExn.nameError
  else
    match matmulShape [] [dim_x, dim_x] with
    | none => PyResult.exn PyExn.valueError
    | some _ => PyResult.ok ()

/-- ILQR.forward_pass (ilqr.py lines 193-222), at the level of its observable run
    outcome. dim_x and cols are trajectory.shape. Line 206,
    trajectory_new[:, 0] = trajectory[: 0], assigns the empty row slice
    trajectory[:0] (shape (0, cols)) into column 0 of trajectory_new (shape
    (dim_x,)); a rank-2 value cannot broadcast into a rank-1 destination, so
    every call raises ValueError before the line-search loop at line 208 runs.
    The ok branch is unreachable and kept only for totality. -/
def forward_pass (dim_x cols : Nat) : PyResult Unit :=
  if broadcastsTo [0, cols] [dim_x] then PyResult.ok ()
  else PyResult.exn PyExn.valueError

/-- The alpha schedule and acceptance rule of the forward-pass line search
    (ilqr.py lines 208-219), conditional on line 206 not raising: while
    alpha > 0.1 (rho is fixed to 0.1 at line 204), a candidate with cost
    Jnew alpha is built; if Jnew alpha < J the loop breaks (acceptance),
    otherwise alpha is replaced by epsilon*alpha. Jnew abstracts the cost of
    the candidate trajectory simulated with step alpha. Returns the step at
    loop exit and whether the exit was an acceptance; the source (line 222)
    returns the last candidate arrays in either case, with no failure signal
    distinguishing exhaustion from acceptance. The Nat argument is recursion
    fuel for the while loop. -/
def fpLineSearch (epsilon : ℚ) (Jnew : ℚ → ℚ) (J : ℚ) : Nat → ℚ → ℚ × Bool
  | 0, alpha => (alpha, false)
  | fuel+1, alpha =>
    if (1:ℚ)/10 < alpha then
      if Jnew alpha < J then (alpha, true)
      else fpLineSearch epsilon Jnew J fuel (epsilon * alpha)
    else (alpha, false)

/-- The configuration fields of ILQR read by plan: dim_u and T (line 248 and
    line 250) and the tolerance tol (line 272). max_iter is loaded at line 55
    but never used by plan. -/
structure IlqrConfig where
  dim_u : Nat
  T : Nat
  tol : ℚ

/-- The mutable ILQR attribute that plan consults: self.ref_path (line 242).
    The RefPath object itself (ref_path.py, not in the source tree) is opaque. -/
structure IlqrData where
  ref_path : Option Unit

/-- Externally visible computation steps performed by plan before its main loop:
    the nominal rollout (line 256), the reference query (line 260) and the
    initial cost evaluation (line 263). -/
inductive PlanEvent where
  | rolloutNominal
  | getReferences
  | trajCost
  deriving DecidableEq

/-- How a call to ILQR.plan ends. -/
inductive PlanOutcome where
  /-- Line 244: return dict(status=-1) when no reference path is set. -/
  | failureStatus
  /-- Line 250: assert controls.shape[1] == self.T fails and raises. -/
  | assertionError
  /-- Line 274 (first iteration of the while loop at line 272): the name alpha is
      referenced but never assigned anywhere in plan, raising NameError. -/
  | nameError
  /-- Lines 335-344: the solver_info dict is returned with status=None (the TODO
      at line 339 is unfilled), K_closed_loop=None and k_open_loop=None. -/
  | infoStatusNone
  deriving DecidableEq

/-- Observable result of a call to ILQR.plan. -/
structure PlanResult where
  outcome : PlanOutcome
  events : List PlanEvent
  /-- The control sequence in use after the warm-start substitution at
      lines 247-250 (none when execution never got past those lines). -/
  controlsUsed : Option Arr2
  /-- The ILQR attributes after the call; plan assigns no attribute of self. -/
  finalData : IlqrData

/-- Body of plan after the precondition and warm-start checks (ilqr.py lines
    253-344). J abstracts the initial trajectory cost computed at line 263 from
    the rollout. The while loop at line 272 runs while J < tol and J > -tol;
    its first statement (line 274) evaluates the unassigned name alpha, so the
    body raises NameError whenever entered. Otherwise the loop is skipped and
    the solver_info dict is returned with status=None. -/
def planBody (cfg : IlqrConfig) (d : IlqrData) (controls : Arr2) (J : ℚ) : PlanResult :=
  { outcome :=
      if J < cfg.tol ∧ -cfg.tol < J then PlanOutcome.nameError
      else PlanOutcome.infoStatusNone
    events := [PlanEvent.rolloutNominal, PlanEvent.getReferences, PlanEvent.trajCost]
    controlsUsed := some controls
    finalData := d }

/-- ILQR.plan (ilqr.py lines 224-344). If self.ref_path is None the call returns
    dict(status=-1) at once (lines 242-244): no rollout, no reference query, no
    cost evaluation, and no attribute of self is touched. Otherwise a missing
    warm start is replaced by np.zeros((dim_u, T)) (line 248), and a supplied
    warm start must satisfy controls.shape[1] == T or the assert at line 250
    raises. -/
def plan (cfg : IlqrConfig) (d : IlqrData) (controls0 : Option Arr2) (J : ℚ) : PlanResult :=
  match d.ref_path with
  | none => ⟨PlanOutcome.failureStatus, [], none, d⟩
  | some _ =>
    match controls0 with
    | none => planBody cfg d (Arr2.zeros cfg.dim_u cfg.T) J
    | some c =>
      if c.cols = cfg.T then planBody cfg d c J
      else ⟨PlanOutcome.assertionError, [], none, d⟩

end ILQR

/-- Modelled from the spec: RealtimeBuffer (imported from utils, which is not
    under the source tree; only its call sites are). Spec section 4.5: write
    atomically replaces the stored value and sets the new-data flag; read
    returns the stored value and clears the flag; reset clears the stored value
    and the flag, so the next read reports no value. -/
structure RealtimeBuffer (α : Type) where
  value : Option α
  new_data_available : Bool

/-- Modelled from the spec: write replaces the stored value and sets the flag. -/
def RealtimeBuffer.writeFromNonRT {α : Type} (_b : RealtimeBuffer α) (v : α) :
    RealtimeBuffer α :=
  ⟨some v, true⟩

/-- Modelled from the spec: read returns the stored value and clears the flag. -/
def RealtimeBuffer.readFromRT {α : Type} (b : RealtimeBuffer α) :
    Option α × RealtimeBuffer α :=
  (b.value, ⟨b.value, false⟩)

/-- Modelled from the spec: reset clears the stored value and the flag. -/
def RealtimeBuffer.reset {α : Type} (_b : RealtimeBuffer α) : RealtimeBuffer α :=
  ⟨none, false⟩

namespace TrajectoryPlanner

/-- The TrajectoryPlanner fields touched by the Start and Stop service
    callbacks: the readiness flag and the policy channel (α is the Policy
    type, opaque here). -/
structure PlannerCtl (α : Type) where
  planner_ready : Bool
  policy_buffer : RealtimeBuffer α

/-- stop_planning_cb (traj_planner.py lines 172-179): sets planner_ready to
    False and resets the policy buffer. -/
def stop_planning_cb {α : Type} (s : PlannerCtl α) : PlannerCtl α :=
  ⟨false, s.policy_buffer.reset⟩

/-- start_planning_cb (traj_planner.py lines 164-170): sets planner_ready to
    True. -/
def start_planning_cb {α : Type} (s : PlannerCtl α) : PlannerCtl α :=
  ⟨true, s.policy_buffer⟩

/-- The replan gate of receding_horizon_planning_thread (traj_planner.py line
    545): new state data available AND t_last_replan > replan_dt AND planner
    ready. Note that the timestamp t_last_replan itself, not the elapsed time
    since it, is compared against the interval replan_dt. -/
def rhGate (replan_dt t_last : ℚ) (newData ready : Bool) : Bool :=
  newData && decide (replan_dt < t_last) && ready

/-- How one pass of the receding-horizon planning loop ends. -/
inductive RHOutcome where
  /-- The gate at line 545 opened and line 582 called
      self.planner.plan(current_state, initial_controls, verbose=False); ILQR.plan
      (ilqr.py line 224) takes only init_state and controls, so the call raises
      TypeError at argument binding, the uncaught exception terminates the
      planning thread, and the assignment of the wall-clock time to
      t_last_replan at line 584 is never reached. -/
  | typeError
  /-- The gate stayed closed: t_last_replan is incremented by 0.01 (line 602)
      and the loop sleeps and continues. -/
  | noReplan (t_last : ℚ)
  deriving DecidableEq

/-- One pass of receding_horizon_planning_thread (traj_planner.py lines
    543-602), restricted to the gate, the t_last_replan bookkeeping and the
    fate of the optimizer call. The goal/path bookkeeping inside the open-gate
    branch (lines 547-580) only reads shared state and cannot stop control from
    reaching the plan call at line 582, which raises TypeError and kills the
    thread; the gate-closed pass increments t_last_replan by 0.01 (line 602).
    No optimizer call is ever entered, completed, or repeated. -/
def rhStep (replan_dt t_last : ℚ) (newData ready : Bool) : RHOutcome :=
  if rhGate replan_dt t_last newData ready then RHOutcome.typeError
  else RHOutcome.noReplan (t_last + 1/100)

/-- Run of the receding-horizon loop from a given t_last_replan with new state
    data always available and the planner ready (the regime in which the
    claimed rate limit would bite): passes of rhStep until the thread dies of
    the line-582 TypeError. Returns the number of gate-closed passes that
    precede the thread death, when it occurs within the fuel. -/
def rhThreadRun (replan_dt : ℚ) : Nat → ℚ → Option Nat
  | 0, _ => none
  | fuel+1, t_last =>
    match rhStep replan_dt t_last true true with
    | RHOutcome.typeError => some 0
    | RHOutcome.noReplan t2 => (rhThreadRun replan_dt fuel t2).map (fun n => n + 1)

/-- The heading wrap used by compute_control (traj_planner.py line 305):
    np.mod(d + pi, 2*pi) - pi, with np.mod(x, m) = x - m*floor(x/m) for m > 0.
    Python float arithmetic is idealised as exact real arithmetic. -/
noncomputable def wrapHeading (d : ℝ) : ℝ :=
  (d + Real.pi) - 2*Real.pi*(⌊(d + Real.pi)/(2*Real.pi)⌋ : ℤ) - Real.pi

/-- The wrapped heading deviation used by compute_control: component 3 of the
    state is the heading. -/
noncomputable def headingErr (x x_ref : Fin 5 → ℝ) : ℝ :=
  wrapHeading (x 3 - x_ref 3)

/-- TrajectoryPlanner.compute_control (traj_planner.py lines 281-312): dx is the
    state deviation with its heading component wrapped (line 305), the control
    is u_ref + K_closed_loop @ dx (line 306), and the pair
    (accel, steer_rate) = (u[0], u[1]) is returned. -/
noncomputable def compute_control (x x_ref : Fin 5 → ℝ) (u_ref : Fin 2 → ℝ)
    (K : Fin 2 → Fin 5 → ℝ) : ℝ × ℝ :=
  let dx : Fin 5 → ℝ := fun i => if i = 3 then headingErr x x_ref else x i - x_ref i
  (u_ref 0 + ∑ i, K 0 i * dx i, u_ref 1 + ∑ i, K 1 i * dx i)

/-- Concrete current state with heading 3.0 rad and all other components 0. -/
noncomputable def exState : Fin 5 → ℝ := fun i => if i = 3 then 3 else 0

/-- Concrete reference state with heading -3.0 rad and all other components 0. -/
noncomputable def exRef : Fin 5 → ℝ := fun i => if i = 3 then -3 else 0

/-- Zero reference control. -/
noncomputable def exU : Fin 2 → ℝ := fun _ => 0

/-- Gain matrix whose first row selects the heading deviation and whose second
    row is zero, so the first returned control equals the wrapped heading error. -/
noncomputable def exK : Fin 2 → Fin 5 → ℝ := fun j i => if j = 0 ∧ i = 3 then 1 else 0

/-- Concrete state with heading pi and all other components 0. -/
noncomputable def piState : Fin 5 → ℝ := fun i => if i = 3 then Real.pi else 0

/-- The zero state. -/
noncomputable def zeroState : Fin 5 → ℝ := fun _ => 0

end TrajectoryPlanner

/-- Helper: the wrap formula lands in the half-open interval from -pi
    (inclusive) to pi (exclusive). -/
theorem wrapHeading_mem_Ico (d : ℝ) :
    TrajectoryPlanner.wrapHeading d ∈ Set.Ico (-Real.pi) Real.pi := by
  have hpi : (0:ℝ) < Real.pi := Real.pi_pos
  have h2 : (0:ℝ) < 2*Real.pi := by linarith
  have hmul : 2*Real.pi * ((d + Real.pi)/(2*Real.pi)) = d + Real.pi :=
    mul_div_cancel₀ _ (ne_of_gt h2)
  have hfl : ((⌊(d + Real.pi)/(2*Real.pi)⌋ : ℤ) : ℝ) ≤ (d + Real.pi)/(2*Real.pi) :=
    Int.floor_le _
  have hfu : (d + Real.pi)/(2*Real.pi) < (⌊(d + Real.pi)/(2*Real.pi)⌋ : ℤ) + 1 :=
    Int.lt_floor_add_one _
  have hw : TrajectoryPlanner.wrapHeading d =
      2*Real.pi*((d + Real.pi)/(2*Real.pi) - ((⌊(d + Real.pi)/(2*Real.pi)⌋ : ℤ) : ℝ))
        - Real.pi := by
    unfold TrajectoryPlanner.wrapHeading
    rw [mul_sub, hmul]
  rw [hw]
  constructor
  · nlinarith
  · nlinarith

/-- Helper: the floor appearing in the wrap of a deviation of 6 rad equals 1. -/
theorem floor_six_arg : ⌊((6:ℝ) + Real.pi)/(2*Real.pi)⌋ = 1 := by
  have hpi : (0:ℝ) < Real.pi := Real.pi_pos
  have h2 : (0:ℝ) < 2*Real.pi := by linarith
  have hle : (((1:ℤ)):ℝ) ≤ ((6:ℝ) + Real.pi)/(2*Real.pi) := by
    rw [le_div_iff₀ h2]
    have h4 : Real.pi ≤ 4 := Real.pi_le_four
    push_cast
    linarith
  have hlt : ((6:ℝ) + Real.pi)/(2*Real.pi) < (1:ℤ) + 1 := by
    rw [div_lt_iff₀ h2]
    have h3 : (3:ℝ) < Real.pi := Real.pi_gt_three
    push_cast
    linarith
  exact Int.floor_eq_iff.mpr ⟨hle, hlt⟩

/-- Helper: the wrap of a deviation of 6 rad is 6 - 2*pi. -/
theorem wrapHeading_six : TrajectoryPlanner.wrapHeading 6 = 6 - 2*Real.pi := by
  unfold TrajectoryPlanner.wrapHeading
  rw [floor_six_arg]
  push_cast
  ring

/-- Helper: the wrap of a deviation of exactly pi is -pi. -/
theorem wrapHeading_at_pi : TrajectoryPlanner.wrapHeading Real.pi = -Real.pi := by
  have hpi : (0:ℝ) < Real.pi := Real.pi_pos
  have h2 : (2*Real.pi) ≠ 0 := by positivity
  unfold TrajectoryPlanner.wrapHeading
  have harg : (Real.pi + Real.pi)/(2*Real.pi) = 1 := by
    rw [show Real.pi + Real.pi = 2*Real.pi by ring]
    exact div_self h2
  rw [harg, Int.floor_one]
  push_cast
  ring

/-- Helper: at the selector gain, the first output of compute_control is the
    wrapped heading error for headings 3.0 and -3.0. -/
theorem compute_control_sel :
    (TrajectoryPlanner.compute_control TrajectoryPlanner.exState TrajectoryPlanner.exRef
      TrajectoryPlanner.exU TrajectoryPlanner.exK).1 = TrajectoryPlanner.wrapHeading 6 := by
  simp [TrajectoryPlanner.compute_control, TrajectoryPlanner.exState,
    TrajectoryPlanner.exRef, TrajectoryPlanner.exU, TrajectoryPlanner.exK,
    TrajectoryPlanner.headingErr, Fin.sum_univ_five]
  norm_num

/-- C1: the claim says the backward pass aborts and restarts with a scaled-up,
    clamped lambda when Quu_reg fails positive-definiteness, and stores gains
    only when Quu_reg is positive definite. In the source the branch is
    inverted: the restart-and-scale branch is taken exactly when the test
    SUCCEEDS and the gain block is entered exactly when it FAILS; moreover
    every call with T at least 1 raises ValueError at line 169 (scalar matmul
    in the Quu_reg expression) before the test ever runs. -/
theorem backward_pass_pd_branch_inverted_and_raises :
    ILQR.backwardPassBranch true = ILQR.BPBranch.restartScaleLam ∧
    ILQR.backwardPassBranch false = ILQR.BPBranch.computeGains ∧
    ILQR.backward_pass 5 10 = PyResult.exn PyExn.valueError :=
  ⟨rfl, rfl, rfl⟩

/-- C2: the claim says plan ends with status Converged exactly when the change
    in cost falls below the tolerance, and with IterationLimitExceeded at
    max_iter. In the source, with initial cost 5 and tolerance 1/100 the loop
    at line 272 (which tests the magnitude of the initial cost, not a cost
    change) is skipped and plan returns with status None; with initial cost 0
    and tolerance 1 the loop body is entered and raises NameError on the
    unassigned name alpha. Neither Converged nor IterationLimitExceeded is ever
    produced. -/
theorem plan_status_never_converged :
    (ILQR.plan ⟨2, 10, 1/100⟩ ⟨some ()⟩ none 5).outcome = ILQR.PlanOutcome.infoStatusNone ∧
    (ILQR.plan ⟨2, 10, 1⟩ ⟨some ()⟩ none 0).outcome = ILQR.PlanOutcome.nameError := by
  constructor
  · norm_num [ILQR.plan, ILQR.planBody]
  · norm_num [ILQR.plan, ILQR.planBody]

/-- C3: the claim says the forward pass tries steps alpha in descending order
    and accepts the first with J_new < J. In the source every call raises
    ValueError at line 206 (empty row slice broadcast into a column) before any
    candidate is simulated; and the line-search loop itself (modelled under the
    assumption that line 206 had not raised), when every candidate costs 10
    against a pre-step cost of 5, exits by exhaustion at alpha = 1/16 with no
    acceptance, after which the source still returns the last rejected
    candidate arrays with no failure signal. -/
theorem forward_pass_raises_before_line_search :
    ILQR.forward_pass 5 51 = PyResult.exn PyExn.valueError ∧
    ILQR.fpLineSearch (1/2) (fun _ => 10) 5 10 1 = (1/16, false) := by
  constructor
  · rfl
  · norm_num [ILQR.fpLineSearch]

/-- C4: the claim says lambda stays within the closed interval from reg_min to
    reg_max across scale operations. The only scale-up in the source (line 174)
    multiplies by the scale factor with no clamp: from reg_init = 1 with factor
    2, five scale-ups reach 32, which exceeds a reg_max of 10. -/
theorem lam_scale_up_unclamped_exceeds_reg_max :
    ILQR.lamScaleUps 2 5 1 = 32 ∧ (10:ℚ) < ILQR.lamScaleUps 2 5 1 := by
  constructor
  · norm_num [ILQR.lamScaleUps, ILQR.lamScaleUp]
  · norm_num [ILQR.lamScaleUps, ILQR.lamScaleUp]

/-- C5: the claim says the backward pass returns gain sequences of length T
    with every retained regularized Hessian block positive definite. In the
    source no call returns gains at all: with T = 50 (or any positive T) the
    first loop iteration raises ValueError at line 169, and with T = 0 the
    return at line 190 reads the never-assigned names Kt and kt, raising
    NameError; the return statement itself would in any case return only the
    single last-step Kt and kt, not length-T sequences. -/
theorem backward_pass_never_returns_gains :
    ILQR.backward_pass 5 50 = PyResult.exn PyExn.valueError ∧
    ILQR.backward_pass 5 0 = PyResult.exn PyExn.nameError :=
  ⟨rfl, rfl⟩

/-- C6: if plan is called while no reference path is set, it returns at once
    with the failure status dict(status=-1), performs no rollout, no reference
    query and no cost evaluation, substitutes no control sequence, and leaves
    the planner attributes unchanged. -/
theorem plan_no_ref_path_fails_without_effects
    (cfg : ILQR.IlqrConfig) (controls0 : Option Arr2) (J : ℚ) :
    ILQR.plan cfg ⟨none⟩ controls0 J =
      ⟨ILQR.PlanOutcome.failureStatus, [], none, ⟨none⟩⟩ :=
  rfl

/-- C7 counterexample: the claim says the wrapped error magnitude for headings
    3.0 and -3.0 is strictly less than 2*pi - 6, and that the wrap lands in the
    interval from -pi (exclusive) to pi (inclusive). In fact the first output
    of compute_control at the selector gain equals 6 - 2*pi, whose magnitude is
    at least (indeed exactly) 2*pi - 6, refuting the strict inequality; and the
    wrap of a deviation of exactly pi is -pi, which lies outside the claimed
    half-open interval excluding -pi. -/
theorem compute_control_wrap_cex :
    (TrajectoryPlanner.compute_control TrajectoryPlanner.exState TrajectoryPlanner.exRef
      TrajectoryPlanner.exU TrajectoryPlanner.exK).1 = 6 - 2*Real.pi ∧
    2*Real.pi - 6 ≤ |(TrajectoryPlanner.compute_control TrajectoryPlanner.exState
      TrajectoryPlanner.exRef TrajectoryPlanner.exU TrajectoryPlanner.exK).1| ∧
    TrajectoryPlanner.headingErr TrajectoryPlanner.piState TrajectoryPlanner.zeroState
      = -Real.pi := by
  have h1 : (TrajectoryPlanner.compute_control TrajectoryPlanner.exState
      TrajectoryPlanner.exRef TrajectoryPlanner.exU TrajectoryPlanner.exK).1
      = 6 - 2*Real.pi := by
    rw [compute_control_sel, wrapHeading_six]
  refine ⟨h1, ?_, ?_⟩
  · rw [h1]
    have h3 : (3:ℝ) < Real.pi := Real.pi_gt_three
    rw [abs_of_neg (by linarith : (6:ℝ) - 2*Real.pi < 0)]
    linarith
  · unfold TrajectoryPlanner.headingErr TrajectoryPlanner.piState TrajectoryPlanner.zeroState
    rw [show ((if ((3:Fin 5) = 3) then Real.pi else 0) - 0 : ℝ) = Real.pi by simp]
    exact wrapHeading_at_pi

/-- C7 amended: compute_control wraps the heading deviation into the half-open
    interval from -pi (inclusive) to pi (exclusive) before applying the
    feedback law; for current heading 3.0 rad and reference heading -3.0 rad
    the wrapped error is 6 - 2*pi, whose magnitude equals 2*pi - 6 (the short
    way around) and is less than 6. -/
theorem compute_control_wrap_amended :
    (∀ x x_ref : Fin 5 → ℝ,
      TrajectoryPlanner.headingErr x x_ref ∈ Set.Ico (-Real.pi) Real.pi) ∧
    (TrajectoryPlanner.compute_control TrajectoryPlanner.exState TrajectoryPlanner.exRef
      TrajectoryPlanner.exU TrajectoryPlanner.exK).1 = 6 - 2*Real.pi ∧
    |6 - 2*Real.pi| = 2*Real.pi - 6 ∧
    2*Real.pi - 6 < 6 := by
  refine ⟨fun x xr => wrapHeading_mem_Ico _, ?_, ?_, ?_⟩
  · rw [compute_control_sel, wrapHeading_six]
  · have h3 : (3:ℝ) < Real.pi := Real.pi_gt_three
    rw [abs_of_neg (by linarith : (6:ℝ) - 2*Real.pi < 0)]
    ring
  · have h4 : Real.pi < 3.15 := Real.pi_lt_d2
    linarith

/-- C8: the claim says replanning is rate-limited to the replan interval and
    that each optimizer call runs to completion before the next one starts. In
    the source no optimizer call is ever even entered: with replan_dt = 0.1,
    fresh state data and the planner ready on every pass, the gate at line 545
    stays closed while t_last_replan climbs by 0.01 per pass (first conjunct),
    opens at t_last_replan = 0.11 (second conjunct), and on that first open
    pass line 582 passes verbose=False to ILQR.plan, which has no such
    parameter; the TypeError kills the thread after exactly eleven gate-closed
    passes and zero completed replans (third conjunct). There is no replanning
    loop at all, rate-limited or otherwise; the gate moreover compares the
    t_last_replan value itself against the interval rather than the elapsed
    time since the last replan. -/
theorem receding_horizon_thread_dies_on_first_replan :
    TrajectoryPlanner.rhStep (1/10) 0 true true
      = TrajectoryPlanner.RHOutcome.noReplan (1/100) ∧
    TrajectoryPlanner.rhStep (1/10) (11/100) true true
      = TrajectoryPlanner.RHOutcome.typeError ∧
    TrajectoryPlanner.rhThreadRun (1/10) 20 0 = some 11 := by
  refine ⟨?_, ?_, ?_⟩
  · norm_num [TrajectoryPlanner.rhStep, TrajectoryPlanner.rhGate]
  · norm_num [TrajectoryPlanner.rhStep, TrajectoryPlanner.rhGate]
  · norm_num [TrajectoryPlanner.rhThreadRun, TrajectoryPlanner.rhStep,
      TrajectoryPlanner.rhGate, Option.map]

/-- C9: after stop_planning_cb, the planner is marked not ready and the next
    read of the policy channel returns no value, regardless of any sequence of
    writes performed before the stop. -/
theorem stop_resets_policy_channel (α : Type)
    (s : TrajectoryPlanner.PlannerCtl α) (vs : List α) :
    (TrajectoryPlanner.stop_planning_cb
      ⟨s.planner_ready, vs.foldl RealtimeBuffer.writeFromNonRT s.policy_buffer⟩).planner_ready
      = false ∧
    ((TrajectoryPlanner.stop_planning_cb
      ⟨s.planner_ready, vs.foldl RealtimeBuffer.writeFromNonRT s.policy_buffer⟩).policy_buffer.readFromRT).1
      = none :=
  ⟨rfl, rfl⟩

/-- C10: with a reference path set, a warm-start control sequence whose second
    dimension differs from T makes plan raise AssertionError (an unwind, not
    the structured dict(status=-1) failure); and when no warm start is given,
    plan substitutes the all-zeros sequence of shape (dim_u, T). -/
theorem plan_warm_start_shape_assert
    (cfg : ILQR.IlqrConfig) (c : Arr2) (J : ℚ) (h : c.cols ≠ cfg.T) :
    (ILQR.plan cfg ⟨some ()⟩ (some c) J).outcome = ILQR.PlanOutcome.assertionError ∧
    (ILQR.plan cfg ⟨some ()⟩ none J).controlsUsed = some (Arr2.zeros cfg.dim_u cfg.T) := by
  constructor
  · unfold ILQR.plan
    simp [h]
  · rfl

/-- Witness for C10 at a concrete input: a warm start with 5 columns against a
    horizon of 10. -/
theorem plan_warm_start_shape_assert_witness :
    ((⟨2, 5, fun _ _ => 0⟩ : Arr2).cols ≠ (⟨2, 10, 1⟩ : ILQR.IlqrConfig).T) ∧
    ((ILQR.plan ⟨2, 10, 1⟩ ⟨some ()⟩ (some ⟨2, 5, fun _ _ => 0⟩) 7).outcome
        = ILQR.PlanOutcome.assertionError ∧
      (ILQR.plan ⟨2, 10, 1⟩ ⟨some ()⟩ none 7).controlsUsed = some (Arr2.zeros 2 10)) :=
  ⟨by decide, plan_warm_start_shape_assert ⟨2, 10, 1⟩ ⟨2, 5, fun _ _ => 0⟩ 7 (by decide)⟩
